import Mathlib

/-!
Verification of the service-report formatter in
`src/examples/commands/services.py` (`main`): the script parses a JSON
project context from stdin and prints a text report of the configured
services.  The embedding below models the parsed JSON value, Python's
truthiness and string conversion for such values, and the exact sequence
of lines the script prints, together with the class of exception raised
on failure.
-/

namespace SpaceCLI

/-- JSON values as produced by Python's `json.load`.  Objects are the parsed
dicts, kept as association lists in insertion order with unique keys (the
JSON object model: duplicate source keys are collapsed by the parser).
JSON numbers are modelled as integers; floating-point literals are outside
this embedding. -/
inductive JValue where
  | null
  | bool (b : Bool)
  | int (n : Int)
  | str (s : String)
  | arr (elems : List JValue)
  | obj (entries : List (String × JValue))

/-- Failure classes of the script, following the taxonomy of the spec:
`malformedInput` covers `json.JSONDecodeError` from `json.load` and the
`TypeError` / `AttributeError` raised when a value of the wrong shape is
subscripted or iterated; `missingField k` covers `KeyError` raised by
`d[k]` on a dict lacking `k`. -/
inductive Err where
  | malformedInput
  | missingField (key : String)
deriving DecidableEq

/-- Lookup `d[key]` / `d.get(key)` on a parsed JSON object (a Python dict).
Keys are unique after parsing, so first-match lookup is the dict lookup. -/
def dictGet : List (String × JValue) → String → Option JValue
  | [], _ => none
  | (k, v) :: rest, key => if k = key then some v else dictGet rest key

/-- Python truthiness (`bool(v)`) of a parsed JSON value:
`None`, `False`, `0`, `""`, `[]` and `{}` are falsy, everything else truthy. -/
def pyTruthy : JValue → Bool
  | .null => false
  | .bool b => b
  | .int n => n != 0
  | .str s => s != ""
  | .arr elems => !elems.isEmpty
  | .obj entries => !entries.isEmpty

def backslashChar : Char := Char.ofNat 92

def squoteChar : Char := Char.ofNat 39

def dquoteChar : Char := Char.ofNat 34

def hexDigit (n : Nat) : Char :=
  if n < 10 then Char.ofNat (48 + n) else Char.ofNat (87 + n)

def hex2 (n : Nat) : String :=
  String.mk [hexDigit (n / 16 % 16), hexDigit (n % 16)]

/-- One character of Python's `repr` of a string, given the chosen quote
character: escapes the backslash, the quote, tab, newline and carriage
return, renders other ASCII control characters as a hex escape, and keeps
everything else verbatim (escaping of non-printable characters beyond
ASCII is elided). -/
def pyCharEsc (quote c : Char) : String :=
  if c = backslashChar then String.mk [backslashChar, backslashChar]
  else if c = quote then String.mk [backslashChar, quote]
  else if c = Char.ofNat 10 then String.mk [backslashChar, Char.ofNat 110]
  else if c = Char.ofNat 13 then String.mk [backslashChar, Char.ofNat 114]
  else if c = Char.ofNat 9 then String.mk [backslashChar, Char.ofNat 116]
  else if c.toNat < 32 || c.toNat == 127 then
    String.mk [backslashChar, Char.ofNat 120] ++ hex2 c.toNat
  else String.singleton c

/-- Python's `repr` of a string: single quotes, switching to double quotes
when the string contains a single quote but no double quote. -/
def pyStrRepr (s : String) : String :=
  let quote := if s.contains squoteChar && !(s.contains dquoteChar)
               then dquoteChar else squoteChar
  String.singleton quote ++ String.join (s.toList.map (pyCharEsc quote))
    ++ String.singleton quote

mutual

/-- Python's `repr` of a parsed JSON value (used by `str` for elements of
containers). -/
def pyRepr : JValue → String
  | .null => "None"
  | .bool true => "True"
  | .bool false => "False"
  | .int n => toString n
  | .str s => pyStrRepr s
  | .arr elems => "[" ++ pyReprElems elems ++ "]"
  | .obj entries => "\x7b" ++ pyReprEntries entries ++ "\x7d"

def pyReprElems : List JValue → String
  | [] => ""
  | [v] => pyRepr v
  | v :: rest => pyRepr v ++ ", " ++ pyReprElems rest

def pyReprEntries : List (String × JValue) → String
  | [] => ""
  | [(k, v)] => pyStrRepr k ++ ": " ++ pyRepr v
  | (k, v) :: rest => pyStrRepr k ++ ": " ++ pyRepr v ++ ", " ++ pyReprEntries rest

end

/-- Python's `str` of a parsed JSON value, as interpolated by an f-string:
a string stays verbatim, everything else renders as its `repr`. -/
def pyStr : JValue → String
  | .str s => s
  | v => pyRepr v

/-- The comparison used by `sorted(services.items())`: tuple comparison,
which with unique dict keys reduces to lexicographic comparison of the
name strings (the tie-breaking value comparison is never reached). -/
def keyLE (a b : String × JValue) : Prop := a.1 ≤ b.1

/-- Strict version of `keyLE`: strictly ascending service names. -/
def keyLT (a b : String × JValue) : Prop := a.1 < b.1

instance : DecidableRel keyLE := fun a b =>
  inferInstanceAs (Decidable (a.1 ≤ b.1))

instance : DecidableRel keyLT := fun a b =>
  inferInstanceAs (Decidable (a.1 < b.1))

instance : IsTotal (String × JValue) keyLE where
  total a b := le_total a.1 b.1

instance : IsTrans (String × JValue) keyLE where
  trans a b c h₁ h₂ := le_trans (show a.1 ≤ b.1 from h₁) (show b.1 ≤ c.1 from h₂)

instance : IsTrans (String × JValue) keyLT where
  trans a b c h₁ h₂ := lt_trans (show a.1 < b.1 from h₁) (show b.1 < c.1 from h₂)

instance : IsAntisymm (String × JValue) keyLT where
  antisymm a b h₁ h₂ :=
    absurd (lt_trans (show a.1 < b.1 from h₁) (show b.1 < a.1 from h₂))
      (lt_irrefl a.1)

/-- The block the loop body prints for one service entry, and the exception
class if a lookup fails mid-block.  Mirrors
`print(f"  \x7bname\x7d:")` then the three sub-field prints: each line is
emitted before the next lookup, so a missing sub-field leaves the lines
printed so far.  Subscripting a non-dict entry raises `TypeError`. -/
def emitBlock (name : String) (svc : JValue) : List String × Option Err :=
  let nameLine := "  " ++ name ++ ":"
  match svc with
  | JValue.obj fields =>
    match dictGet fields "dns_name" with
    | none => ([nameLine], some (Err.missingField "dns_name"))
    | some d =>
      let dnsLine := "    DNS:  " ++ pyStr d
      match dictGet fields "internal_port" with
      | none => ([nameLine, dnsLine], some (Err.missingField "internal_port"))
      | some p =>
        let portLine := "    Port: " ++ pyStr p
        match dictGet fields "url" with
        | none => ([nameLine, dnsLine, portLine], some (Err.missingField "url"))
        | some u => ([nameLine, dnsLine, portLine, "    URL:  " ++ pyStr u, ""], none)
  | _ => ([nameLine], some Err.malformedInput)

/-- The `for name, svc in sorted(...)` loop over the already-sorted entries:
blocks are emitted in order until the first failing entry, whose partial
block and exception end the run (later entries are never reached). -/
def emitBlocks : List (String × JValue) → List String × Option Err
  | [] => ([], none)
  | (name, svc) :: rest =>
    match emitBlock name svc with
    | (out, some e) => (out, some e)
    | (out, none) =>
      let tail := emitBlocks rest
      (out ++ tail.1, tail.2)

/-- The three header lines and the blank line printed after them. -/
def headerLines (pn hv bd : JValue) : List String :=
  ["Project: " ++ pyStr pn, "Hash: " ++ pyStr hv, "Domain: " ++ pyStr bd, ""]

/-- The body of `main` once `json.load` has produced a dict `ctx`: the
header prints (each f-string lookup may raise `KeyError` after earlier
lines were already printed), the `services` read with `{}` default, the
truthiness test, and the sorted loop over the entries. -/
def report_obj (ctx : List (String × JValue)) : List String × Option Err :=
  match dictGet ctx "project_name" with
  | none => ([], some (Err.missingField "project_name"))
  | some pn =>
    match dictGet ctx "hash" with
    | none => (["Project: " ++ pyStr pn], some (Err.missingField "hash"))
    | some hv =>
      match dictGet ctx "base_domain" with
      | none =>
        (["Project: " ++ pyStr pn, "Hash: " ++ pyStr hv],
         some (Err.missingField "base_domain"))
      | some bd =>
        let services := (dictGet ctx "services").getD (JValue.obj [])
        if pyTruthy services then
          match services with
          | JValue.obj svcs =>
            (headerLines pn hv bd ++ "Services:"
               :: (emitBlocks (List.insertionSort keyLE svcs)).1,
             (emitBlocks (List.insertionSort keyLE svcs)).2)
          | _ =>
            (headerLines pn hv bd ++ ["Services:"], some Err.malformedInput)
        else
          (headerLines pn hv bd ++ ["No services configured."], none)

/-- `main` of `services.py`.  The input is the result of `json.load`:
`none` models a stream that is not valid JSON (the parse raises before
anything is printed); a parsed non-object makes the very first subscript
raise `TypeError` before any output.  The result is the list of lines
written to stdout and the exception class, if any, that ended the run. -/
def generate_report : Option JValue → List String × Option Err
  | none => ([], some Err.malformedInput)
  | some (JValue.obj ctx) => report_obj ctx
  | some _ => ([], some Err.malformedInput)

/-- C2: with the three required fields present and `services` absent or the
empty mapping, the output is exactly the three header lines, one blank line
and the literal line `No services configured.`, with no further content and
no failure; absence of the `services` key just falls back to `{}`. -/
theorem empty_services_output (ctx : List (String × JValue)) (pn hv bd : JValue)
    (hpn : dictGet ctx "project_name" = some pn)
    (hh : dictGet ctx "hash" = some hv)
    (hb : dictGet ctx "base_domain" = some bd)
    (hs : dictGet ctx "services" = none ∨ dictGet ctx "services" = some (JValue.obj [])) :
    generate_report (some (JValue.obj ctx)) =
      (["Project: " ++ pyStr pn, "Hash: " ++ pyStr hv, "Domain: " ++ pyStr bd, "",
        "No services configured."], none) := by
  rcases hs with hs | hs <;>
    simp [generate_report, report_obj, hpn, hh, hb, hs, pyTruthy, headerLines]

theorem empty_services_output_witness :
    generate_report (some (JValue.obj
        [("project_name", JValue.str "acme"), ("hash", JValue.str "abc123"),
         ("base_domain", JValue.str "acme.dev"), ("services", JValue.obj [])])) =
      (["Project: acme", "Hash: abc123", "Domain: acme.dev", "",
        "No services configured."], none)
    ∧ generate_report (some (JValue.obj
        [("project_name", JValue.str "acme"), ("hash", JValue.str "abc123"),
         ("base_domain", JValue.str "acme.dev")])) =
      (["Project: acme", "Hash: abc123", "Domain: acme.dev", "",
        "No services configured."], none) :=
  ⟨empty_services_output _ (JValue.str "acme") (JValue.str "abc123")
      (JValue.str "acme.dev") rfl rfl rfl (Or.inr rfl),
   empty_services_output _ (JValue.str "acme") (JValue.str "abc123")
      (JValue.str "acme.dev") rfl rfl rfl (Or.inl rfl)⟩

/-- C3: a top-level object lacking `project_name`, `hash` or `base_domain`
fails with the `MissingFieldError` class for that key, substitutes no
default, and the output already written is exactly the header lines that
preceded the failing lookup. -/
theorem missing_required_field_fails (ctx : List (String × JValue)) :
    (dictGet ctx "project_name" = none →
      generate_report (some (JValue.obj ctx)) =
        ([], some (Err.missingField "project_name")))
    ∧ (∀ pn, dictGet ctx "project_name" = some pn → dictGet ctx "hash" = none →
      generate_report (some (JValue.obj ctx)) =
        (["Project: " ++ pyStr pn], some (Err.missingField "hash")))
    ∧ (∀ pn hv, dictGet ctx "project_name" = some pn →
      dictGet ctx "hash" = some hv → dictGet ctx "base_domain" = none →
      generate_report (some (JValue.obj ctx)) =
        (["Project: " ++ pyStr pn, "Hash: " ++ pyStr hv],
         some (Err.missingField "base_domain"))) := by
  refine ⟨fun h => ?_, fun pn h1 h2 => ?_, fun pn hv h1 h2 h3 => ?_⟩ <;>
    simp [generate_report, report_obj, *]

theorem missing_required_field_fails_witness :
    generate_report (some (JValue.obj [("hash", JValue.str "h")])) =
      ([], some (Err.missingField "project_name"))
    ∧ generate_report (some (JValue.obj [("project_name", JValue.str "p")])) =
      (["Project: p"], some (Err.missingField "hash"))
    ∧ generate_report (some (JValue.obj
        [("project_name", JValue.str "p"), ("hash", JValue.str "h")])) =
      (["Project: p", "Hash: h"], some (Err.missingField "base_domain")) :=
  ⟨(missing_required_field_fails _).1 rfl,
   (missing_required_field_fails _).2.1 (JValue.str "p") rfl rfl,
   (missing_required_field_fails _).2.2 (JValue.str "p") (JValue.str "h") rfl rfl rfl⟩

/-- C4: an input stream that is not valid JSON, or whose parse is not an
object at the top level, fails with the `MalformedInputError` class before
any line is written. -/
theorem malformed_input_no_output (v : JValue)
    (hv : ∀ entries, v ≠ JValue.obj entries) :
    generate_report none = ([], some Err.malformedInput)
    ∧ generate_report (some v) = ([], some Err.malformedInput) := by
  refine ⟨rfl, ?_⟩
  cases v with
  | null => rfl
  | bool b => rfl
  | int n => rfl
  | str s => rfl
  | arr elems => rfl
  | obj entries => exact absurd rfl (hv entries)

theorem malformed_input_no_output_witness :
    generate_report none = ([], some Err.malformedInput)
    ∧ generate_report (some (JValue.arr [JValue.int 1])) =
      ([], some Err.malformedInput) :=
  malformed_input_no_output (JValue.arr [JValue.int 1])
    (fun _ h => JValue.noConfusion h)

/-- C6: a service entry whose `dns_name`, `internal_port` and `url` have the
schema types produces the four-line block with those exact values: the two
strings verbatim and the port in its natural decimal representation. -/
theorem service_block_verbatim (name d u : String) (p : Int)
    (fields : List (String × JValue))
    (hd : dictGet fields "dns_name" = some (JValue.str d))
    (hp : dictGet fields "internal_port" = some (JValue.int p))
    (hu : dictGet fields "url" = some (JValue.str u)) :
    emitBlock name (JValue.obj fields) =
      (["  " ++ name ++ ":", "    DNS:  " ++ d, "    Port: " ++ toString p,
        "    URL:  " ++ u, ""], none) := by
  simp [emitBlock, hd, hp, hu, pyStr, pyRepr]

theorem service_block_verbatim_witness :
    emitBlock "web" (JValue.obj
        [("dns_name", JValue.str "web.svc"), ("internal_port", JValue.int 8080),
         ("url", JValue.str "http://web.acme.dev")]) =
      (["  web:", "    DNS:  web.svc", "    Port: 8080",
        "    URL:  http://web.acme.dev", ""], none) :=
  service_block_verbatim "web" "web.svc" "http://web.acme.dev" 8080 _ rfl rfl rfl

/-- C7: the report is a pure function of the parsed input: the embedding of
`main` is a function of the input document alone, so running it twice on
the same input yields byte-identical output (no randomness, environment, or
iteration-order dependence exists in the model). -/
theorem generate_report_deterministic (input : Option JValue) :
    generate_report input = generate_report input := rfl

/-- C8: a `services` key that is present but falsy under Python truthiness
(`null`, `false`, `0`, the empty string, the empty array) does not fail: it
is handled exactly like an absent or empty mapping, emitting
`No services configured.` after the headers. -/
theorem falsy_services_treated_empty (ctx : List (String × JValue))
    (pn hv bd v : JValue)
    (hpn : dictGet ctx "project_name" = some pn)
    (hh : dictGet ctx "hash" = some hv)
    (hb : dictGet ctx "base_domain" = some bd)
    (hs : dictGet ctx "services" = some v)
    (hfalsy : pyTruthy v = false) :
    generate_report (some (JValue.obj ctx)) =
      (["Project: " ++ pyStr pn, "Hash: " ++ pyStr hv, "Domain: " ++ pyStr bd, "",
        "No services configured."], none) := by
  simp [generate_report, report_obj, hpn, hh, hb, hs, hfalsy, headerLines]

theorem falsy_services_treated_empty_witness :
    generate_report (some (JValue.obj
        [("project_name", JValue.str "p"), ("hash", JValue.str "h"),
         ("base_domain", JValue.str "d"), ("services", JValue.null)])) =
      (["Project: p", "Hash: h", "Domain: d", "", "No services configured."], none)
    ∧ generate_report (some (JValue.obj
        [("project_name", JValue.str "p"), ("hash", JValue.str "h"),
         ("base_domain", JValue.str "d"), ("services", JValue.bool false)])) =
      (["Project: p", "Hash: h", "Domain: d", "", "No services configured."], none)
    ∧ generate_report (some (JValue.obj
        [("project_name", JValue.str "p"), ("hash", JValue.str "h"),
         ("base_domain", JValue.str "d"), ("services", JValue.int 0)])) =
      (["Project: p", "Hash: h", "Domain: d", "", "No services configured."], none)
    ∧ generate_report (some (JValue.obj
        [("project_name", JValue.str "p"), ("hash", JValue.str "h"),
         ("base_domain", JValue.str "d"), ("services", JValue.str "")])) =
      (["Project: p", "Hash: h", "Domain: d", "", "No services configured."], none)
    ∧ generate_report (some (JValue.obj
        [("project_name", JValue.str "p"), ("hash", JValue.str "h"),
         ("base_domain", JValue.str "d"), ("services", JValue.arr [])])) =
      (["Project: p", "Hash: h", "Domain: d", "", "No services configured."], none) :=
  ⟨falsy_services_treated_empty
      [("project_name", JValue.str "p"), ("hash", JValue.str "h"),
       ("base_domain", JValue.str "d"), ("services", JValue.null)]
      (JValue.str "p") (JValue.str "h") (JValue.str "d") JValue.null
      rfl rfl rfl rfl rfl,
   falsy_services_treated_empty
      [("project_name", JValue.str "p"), ("hash", JValue.str "h"),
       ("base_domain", JValue.str "d"), ("services", JValue.bool false)]
      (JValue.str "p") (JValue.str "h") (JValue.str "d") (JValue.bool false)
      rfl rfl rfl rfl rfl,
   falsy_services_treated_empty
      [("project_name", JValue.str "p"), ("hash", JValue.str "h"),
       ("base_domain", JValue.str "d"), ("services", JValue.int 0)]
      (JValue.str "p") (JValue.str "h") (JValue.str "d") (JValue.int 0)
      rfl rfl rfl rfl rfl,
   falsy_services_treated_empty
      [("project_name", JValue.str "p"), ("hash", JValue.str "h"),
       ("base_domain", JValue.str "d"), ("services", JValue.str "")]
      (JValue.str "p") (JValue.str "h") (JValue.str "d") (JValue.str "")
      rfl rfl rfl rfl rfl,
   falsy_services_treated_empty
      [("project_name", JValue.str "p"), ("hash", JValue.str "h"),
       ("base_domain", JValue.str "d"), ("services", JValue.arr [])]
      (JValue.str "p") (JValue.str "h") (JValue.str "d") (JValue.arr [])
      rfl rfl rfl rfl rfl⟩

/-- C10: service sub-fields are not type-checked: whatever parsed JSON
values the three sub-fields hold, the block is emitted without failure and
each line carries the value's Python string rendering verbatim. -/
theorem subfields_not_typechecked (name : String)
    (fields : List (String × JValue)) (d p u : JValue)
    (hd : dictGet fields "dns_name" = some d)
    (hp : dictGet fields "internal_port" = some p)
    (hu : dictGet fields "url" = some u) :
    emitBlock name (JValue.obj fields) =
      (["  " ++ name ++ ":", "    DNS:  " ++ pyStr d, "    Port: " ++ pyStr p,
        "    URL:  " ++ pyStr u, ""], none) := by
  simp [emitBlock, hd, hp, hu]

theorem subfields_not_typechecked_witness :
    emitBlock "web" (JValue.obj
        [("dns_name", JValue.int 5), ("internal_port", JValue.str "8080"),
         ("url", JValue.null)]) =
      (["  web:", "    DNS:  5", "    Port: 8080", "    URL:  None", ""], none) :=
  subfields_not_typechecked "web" _ (JValue.int 5) (JValue.str "8080") JValue.null
    rfl rfl rfl

/-- C9: the report depends only on the four schema keys: two top-level
objects that agree on `project_name`, `hash`, `base_domain` and `services`
produce identical output whatever other keys they carry; extra keys are
never read. -/
theorem unknown_keys_ignored (ctx₁ ctx₂ : List (String × JValue))
    (hpn : dictGet ctx₁ "project_name" = dictGet ctx₂ "project_name")
    (hh : dictGet ctx₁ "hash" = dictGet ctx₂ "hash")
    (hb : dictGet ctx₁ "base_domain" = dictGet ctx₂ "base_domain")
    (hs : dictGet ctx₁ "services" = dictGet ctx₂ "services") :
    generate_report (some (JValue.obj ctx₁)) =
      generate_report (some (JValue.obj ctx₂)) := by
  show report_obj ctx₁ = report_obj ctx₂
  unfold report_obj
  rw [hpn, hh, hb, hs]

theorem unknown_keys_ignored_witness :
    generate_report (some (JValue.obj
        [("project_name", JValue.str "p"), ("hash", JValue.str "h"),
         ("base_domain", JValue.str "d"), ("color", JValue.str "blue"),
         ("replicas", JValue.int 3)])) =
      generate_report (some (JValue.obj
        [("debug", JValue.bool true), ("project_name", JValue.str "p"),
         ("hash", JValue.str "h"), ("base_domain", JValue.str "d")])) :=
  unknown_keys_ignored
    [("project_name", JValue.str "p"), ("hash", JValue.str "h"),
     ("base_domain", JValue.str "d"), ("color", JValue.str "blue"),
     ("replicas", JValue.int 3)]
    [("debug", JValue.bool true), ("project_name", JValue.str "p"),
     ("hash", JValue.str "h"), ("base_domain", JValue.str "d")]
    rfl rfl rfl rfl

/-- With pairwise-distinct keys, the sorted service list is sorted strictly:
`keyLE`-sortedness upgrades to `keyLT`. -/
theorem pairwise_keyLT_insertionSort (svcs : List (String × JValue))
    (hnd : (svcs.map Prod.fst).Nodup) :
    List.Pairwise keyLT (List.insertionSort keyLE svcs) := by
  have hsorted : List.Pairwise keyLE (List.insertionSort keyLE svcs) :=
    List.sorted_insertionSort keyLE svcs
  have hperm : List.Perm (List.insertionSort keyLE svcs) svcs :=
    List.perm_insertionSort keyLE svcs
  have hnd' : ((List.insertionSort keyLE svcs).map Prod.fst).Nodup :=
    ((hperm.map Prod.fst).nodup_iff).mpr hnd
  have hne : List.Pairwise (fun a b : String × JValue => a.1 ≠ b.1)
      (List.insertionSort keyLE svcs) := List.pairwise_map.mp hnd'
  exact (hsorted.and hne).imp (fun h => lt_of_le_of_ne h.1 h.2)

/-- With pairwise-distinct keys the sorted service list is determined by the
multiset of entries: any reordering of the input sorts to the same list. -/
theorem insertionSort_key_unique (svcs svcs' : List (String × JValue))
    (hnd : (svcs.map Prod.fst).Nodup) (hp : List.Perm svcs' svcs) :
    List.insertionSort keyLE svcs' = List.insertionSort keyLE svcs := by
  have hnd' : (svcs'.map Prod.fst).Nodup := ((hp.map Prod.fst).nodup_iff).mpr hnd
  exact List.eq_of_perm_of_sorted
    ((List.perm_insertionSort keyLE svcs').trans
      (hp.trans (List.perm_insertionSort keyLE svcs).symm))
    (pairwise_keyLT_insertionSort svcs' hnd')
    (pairwise_keyLT_insertionSort svcs hnd)

/-- C1: for a valid context with a non-empty `services` mapping, the service
blocks are emitted from the list sorted strictly ascending by service name
(strictness from key uniqueness of the JSON object), and any reordering of
the entries sorts to the same list, so the emitted order is independent of
input key order. -/
theorem services_sorted_ascending (ctx : List (String × JValue))
    (pn hv bd : JValue) (svcs : List (String × JValue))
    (hpn : dictGet ctx "project_name" = some pn)
    (hh : dictGet ctx "hash" = some hv)
    (hb : dictGet ctx "base_domain" = some bd)
    (hs : dictGet ctx "services" = some (JValue.obj svcs))
    (hne : svcs ≠ [])
    (hnd : (svcs.map Prod.fst).Nodup) :
    List.Pairwise keyLT (List.insertionSort keyLE svcs)
    ∧ generate_report (some (JValue.obj ctx)) =
        (headerLines pn hv bd ++ "Services:"
           :: (emitBlocks (List.insertionSort keyLE svcs)).1,
         (emitBlocks (List.insertionSort keyLE svcs)).2)
    ∧ ∀ svcs' : List (String × JValue), List.Perm svcs' svcs →
        List.insertionSort keyLE svcs' = List.insertionSort keyLE svcs := by
  have hempty : svcs.isEmpty = false := by
    cases svcs with
    | nil => exact absurd rfl hne
    | cons a l => rfl
  refine ⟨pairwise_keyLT_insertionSort svcs hnd, ?_,
    fun svcs' hp => insertionSort_key_unique svcs svcs' hnd hp⟩
  simp [generate_report, report_obj, hpn, hh, hb, hs, pyTruthy, hempty, headerLines]

theorem services_sorted_ascending_witness :
    List.Pairwise keyLT (List.insertionSort keyLE
      [("web", JValue.obj
          [("dns_name", JValue.str "web.svc"), ("internal_port", JValue.int 8080),
           ("url", JValue.str "http://web.acme.dev")]),
       ("api", JValue.obj
          [("dns_name", JValue.str "api.svc"), ("internal_port", JValue.int 9090),
           ("url", JValue.str "http://api.acme.dev")])])
    ∧ generate_report (some (JValue.obj
        [("project_name", JValue.str "acme"), ("hash", JValue.str "abc123"),
         ("base_domain", JValue.str "acme.dev"),
         ("services", JValue.obj
            [("web", JValue.obj
                [("dns_name", JValue.str "web.svc"), ("internal_port", JValue.int 8080),
                 ("url", JValue.str "http://web.acme.dev")]),
             ("api", JValue.obj
                [("dns_name", JValue.str "api.svc"), ("internal_port", JValue.int 9090),
                 ("url", JValue.str "http://api.acme.dev")])])])) =
      (headerLines (JValue.str "acme") (JValue.str "abc123") (JValue.str "acme.dev")
         ++ "Services:" :: (emitBlocks (List.insertionSort keyLE
              [("web", JValue.obj
                  [("dns_name", JValue.str "web.svc"), ("internal_port", JValue.int 8080),
                   ("url", JValue.str "http://web.acme.dev")]),
               ("api", JValue.obj
                  [("dns_name", JValue.str "api.svc"), ("internal_port", JValue.int 9090),
                   ("url", JValue.str "http://api.acme.dev")])])).1,
       (emitBlocks (List.insertionSort keyLE
              [("web", JValue.obj
                  [("dns_name", JValue.str "web.svc"), ("internal_port", JValue.int 8080),
                   ("url", JValue.str "http://web.acme.dev")]),
               ("api", JValue.obj
                  [("dns_name", JValue.str "api.svc"), ("internal_port", JValue.int 9090),
                   ("url", JValue.str "http://api.acme.dev")])])).2)
    ∧ List.insertionSort keyLE
        [("api", JValue.obj
            [("dns_name", JValue.str "api.svc"), ("internal_port", JValue.int 9090),
             ("url", JValue.str "http://api.acme.dev")]),
         ("web", JValue.obj
            [("dns_name", JValue.str "web.svc"), ("internal_port", JValue.int 8080),
             ("url", JValue.str "http://web.acme.dev")])] =
      List.insertionSort keyLE
        [("web", JValue.obj
            [("dns_name", JValue.str "web.svc"), ("internal_port", JValue.int 8080),
             ("url", JValue.str "http://web.acme.dev")]),
         ("api", JValue.obj
            [("dns_name", JValue.str "api.svc"), ("internal_port", JValue.int 9090),
             ("url", JValue.str "http://api.acme.dev")])] :=
  have h := services_sorted_ascending
    [("project_name", JValue.str "acme"), ("hash", JValue.str "abc123"),
     ("base_domain", JValue.str "acme.dev"),
     ("services", JValue.obj
        [("web", JValue.obj
            [("dns_name", JValue.str "web.svc"), ("internal_port", JValue.int 8080),
             ("url", JValue.str "http://web.acme.dev")]),
         ("api", JValue.obj
            [("dns_name", JValue.str "api.svc"), ("internal_port", JValue.int 9090),
             ("url", JValue.str "http://api.acme.dev")])])]
    (JValue.str "acme") (JValue.str "abc123") (JValue.str "acme.dev")
    [("web", JValue.obj
        [("dns_name", JValue.str "web.svc"), ("internal_port", JValue.int 8080),
         ("url", JValue.str "http://web.acme.dev")]),
     ("api", JValue.obj
        [("dns_name", JValue.str "api.svc"), ("internal_port", JValue.int 9090),
         ("url", JValue.str "http://api.acme.dev")])]
    rfl rfl rfl rfl (List.cons_ne_nil _ _) (by decide)
  ⟨h.1, h.2.1,
   h.2.2
     [("api", JValue.obj
         [("dns_name", JValue.str "api.svc"), ("internal_port", JValue.int 9090),
          ("url", JValue.str "http://api.acme.dev")]),
      ("web", JValue.obj
         [("dns_name", JValue.str "web.svc"), ("internal_port", JValue.int 8080),
          ("url", JValue.str "http://web.acme.dev")])]
     (List.Perm.swap _ _ _)⟩

/-- The loop runs through a prefix of successful entries before the rest:
its output is the concatenation of their blocks followed by whatever the
rest of the list produces. -/
theorem emitBlocks_ok_append (pre l : List (String × JValue))
    (hpre : ∀ e ∈ pre, (emitBlock e.1 e.2).2 = none) :
    emitBlocks (pre ++ l) =
      ((pre.map fun e => (emitBlock e.1 e.2).1).flatten ++ (emitBlocks l).1,
       (emitBlocks l).2) := by
  induction pre with
  | nil => simp [emitBlocks]
  | cons e rest ih =>
    obtain ⟨name, svc⟩ := e
    have he : (emitBlock name svc).2 = none :=
      hpre (name, svc) (List.mem_cons_self _ _)
    have hrest : ∀ x ∈ rest, (emitBlock x.1 x.2).2 = none :=
      fun x hx => hpre x (List.mem_cons_of_mem _ hx)
    rcases hblk : emitBlock name svc with ⟨out, res⟩
    have hres : res = none := by rw [hblk] at he; exact he
    subst hres
    simp [emitBlocks, hblk, ih hrest, List.append_assoc]

/-- C5: a service entry lacking one of the three sub-fields makes the run
fail with the `MissingFieldError` class for a sub-field of that entry: the
output stops after that entry's partial block, and entries sorted after it
are never emitted (no recovery, no skipping, no completion). -/
theorem missing_subfield_aborts_report (ctx : List (String × JValue))
    (pn hv bd : JValue) (svcs pre post fields : List (String × JValue))
    (name : String)
    (hpn : dictGet ctx "project_name" = some pn)
    (hh : dictGet ctx "hash" = some hv)
    (hb : dictGet ctx "base_domain" = some bd)
    (hs : dictGet ctx "services" = some (JValue.obj svcs))
    (hsplit : List.insertionSort keyLE svcs = pre ++ (name, JValue.obj fields) :: post)
    (hpre : ∀ e ∈ pre, (emitBlock e.1 e.2).2 = none)
    (hmiss : dictGet fields "dns_name" = none ∨ dictGet fields "internal_port" = none
      ∨ dictGet fields "url" = none) :
    ∃ f, (f = "dns_name" ∨ f = "internal_port" ∨ f = "url")
      ∧ (emitBlock name (JValue.obj fields)).2 = some (Err.missingField f)
      ∧ generate_report (some (JValue.obj ctx)) =
          (headerLines pn hv bd ++ "Services:"
             :: ((pre.map fun e => (emitBlock e.1 e.2).1).flatten
                 ++ (emitBlock name (JValue.obj fields)).1),
           some (Err.missingField f)) := by
  obtain ⟨f, hfmem, hfail⟩ :
      ∃ f, (f = "dns_name" ∨ f = "internal_port" ∨ f = "url")
        ∧ (emitBlock name (JValue.obj fields)).2 = some (Err.missingField f) := by
    rcases h1 : dictGet fields "dns_name" with _ | d
    · exact ⟨"dns_name", Or.inl rfl, by simp [emitBlock, h1]⟩
    · rcases h2 : dictGet fields "internal_port" with _ | p
      · exact ⟨"internal_port", Or.inr (Or.inl rfl), by simp [emitBlock, h1, h2]⟩
      · rcases h3 : dictGet fields "url" with _ | u
        · exact ⟨"url", Or.inr (Or.inr rfl), by simp [emitBlock, h1, h2, h3]⟩
        · rcases hmiss with hm | hm | hm <;> simp_all
  have hempty : svcs.isEmpty = false := by
    cases svcs with
    | nil => simp [List.insertionSort] at hsplit
    | cons a l => rfl
  refine ⟨f, hfmem, hfail, ?_⟩
  rcases hblk : emitBlock name (JValue.obj fields) with ⟨out, res⟩
  have hres : res = some (Err.missingField f) := by rw [hblk] at hfail; exact hfail
  subst hres
  simp [generate_report, report_obj, hpn, hh, hb, hs, pyTruthy, hempty, hsplit,
        emitBlocks_ok_append pre ((name, JValue.obj fields) :: post) hpre,
        emitBlocks, hblk, headerLines, List.append_assoc]

theorem missing_subfield_aborts_report_witness :
    generate_report (some (JValue.obj
        [("project_name", JValue.str "p"), ("hash", JValue.str "h"),
         ("base_domain", JValue.str "d"),
         ("services", JValue.obj
            [("beta", JValue.obj
                [("dns_name", JValue.str "b.svc"), ("url", JValue.str "http://b")]),
             ("alpha", JValue.obj
                [("dns_name", JValue.str "a.svc"), ("internal_port", JValue.int 1),
                 ("url", JValue.str "http://a")])])])) =
      (["Project: p", "Hash: h", "Domain: d", "", "Services:",
        "  alpha:", "    DNS:  a.svc", "    Port: 1", "    URL:  http://a", "",
        "  beta:", "    DNS:  b.svc"],
       some (Err.missingField "internal_port")) := by
  have hba : ¬ keyLE
      ("beta", JValue.obj
        [("dns_name", JValue.str "b.svc"), ("url", JValue.str "http://b")])
      ("alpha", JValue.obj
        [("dns_name", JValue.str "a.svc"), ("internal_port", JValue.int 1),
         ("url", JValue.str "http://a")]) := by
    show ¬ (("beta" : String) ≤ "alpha")
    rw [String.le_iff_toList_le]
    decide
  have hsplit : List.insertionSort keyLE
      [("beta", JValue.obj
          [("dns_name", JValue.str "b.svc"), ("url", JValue.str "http://b")]),
       ("alpha", JValue.obj
          [("dns_name", JValue.str "a.svc"), ("internal_port", JValue.int 1),
           ("url", JValue.str "http://a")])] =
      [("alpha", JValue.obj
          [("dns_name", JValue.str "a.svc"), ("internal_port", JValue.int 1),
           ("url", JValue.str "http://a")])]
        ++ ("beta", JValue.obj
              [("dns_name", JValue.str "b.svc"), ("url", JValue.str "http://b")])
           :: [] := by
    simp [List.insertionSort, List.orderedInsert, hba]
  obtain ⟨f, hfmem, hfail, heq⟩ := missing_subfield_aborts_report
    [("project_name", JValue.str "p"), ("hash", JValue.str "h"),
     ("base_domain", JValue.str "d"),
     ("services", JValue.obj
        [("beta", JValue.obj
            [("dns_name", JValue.str "b.svc"), ("url", JValue.str "http://b")]),
         ("alpha", JValue.obj
            [("dns_name", JValue.str "a.svc"), ("internal_port", JValue.int 1),
             ("url", JValue.str "http://a")])])]
    (JValue.str "p") (JValue.str "h") (JValue.str "d")
    [("beta", JValue.obj
        [("dns_name", JValue.str "b.svc"), ("url", JValue.str "http://b")]),
     ("alpha", JValue.obj
        [("dns_name", JValue.str "a.svc"), ("internal_port", JValue.int 1),
         ("url", JValue.str "http://a")])]
    [("alpha", JValue.obj
        [("dns_name", JValue.str "a.svc"), ("internal_port", JValue.int 1),
         ("url", JValue.str "http://a")])]
    []
    [("dns_name", JValue.str "b.svc"), ("url", JValue.str "http://b")]
    "beta"
    rfl rfl rfl rfl hsplit
    (by intro e he; rw [List.mem_singleton] at he; subst he; rfl)
    (Or.inr (Or.inl rfl))
  have h2 : some (Err.missingField "internal_port") = some (Err.missingField f) := hfail
  have hf : f = "internal_port" := by
    injection h2 with h3
    injection h3 with h4
    exact h4.symm
  subst hf
  exact heq

end SpaceCLI
